import Mathlib

/-!
Verification of the CS330-Module-Eight 3D scene renderer
(SceneManager.cpp / ViewManager.cpp) against its design specification.

The relevant C++ routines are shallowly embedded below:
* real-valued geometry (GLM matrices, trigonometry) over `ℝ`;
* exact literal arithmetic (materials, candle stack, scroll clamp,
  texture registry) over `ℚ` / `ℤ` / `ℕ` so that concrete instances
  can be evaluated.
-/

namespace CS330

/-- A 3-component vector of reals, mirroring `glm::vec3`. -/
structure Vec3 where
  x : ℝ
  y : ℝ
  z : ℝ

/-- Componentwise vector addition, mirroring `glm::vec3` `+`. -/
noncomputable def vadd (a b : Vec3) : Vec3 := ⟨a.x + b.x, a.y + b.y, a.z + b.z⟩

/-- Componentwise vector subtraction, mirroring `glm::vec3` `-`. -/
noncomputable def vsub (a b : Vec3) : Vec3 := ⟨a.x - b.x, a.y - b.y, a.z - b.z⟩

/-- Scalar multiple of a vector, mirroring `glm::vec3 * float`. -/
noncomputable def vsmul (k : ℝ) (v : Vec3) : Vec3 := ⟨k * v.x, k * v.y, k * v.z⟩

/-- Euclidean dot product on `Vec3`, mirroring `glm::dot`. -/
noncomputable def dot3 (a b : Vec3) : ℝ := a.x * b.x + a.y * b.y + a.z * b.z

/-- `glm::normalize`: the vector divided by its Euclidean length. -/
noncomputable def glmNormalize (v : Vec3) : Vec3 :=
  let n := Real.sqrt (v.x ^ 2 + v.y ^ 2 + v.z ^ 2)
  ⟨v.x / n, v.y / n, v.z / n⟩

/-- 4×4 real matrix, mirroring `glm::mat4` (in mathematical row/column
convention: entry `i j` acts on column vectors). -/
abbrev Mat4 := Matrix (Fin 4) (Fin 4) ℝ

/-- `glm::radians`: degrees to radians. -/
noncomputable def radians (degrees : ℝ) : ℝ := degrees * Real.pi / 180

/-- `glm::scale(s)`: diagonal scaling matrix. -/
noncomputable def glmScale (s : Vec3) : Mat4 :=
  Matrix.of ![![s.x, 0, 0, 0], ![0, s.y, 0, 0], ![0, 0, s.z, 0], ![0, 0, 0, 1]]

/-- `glm::translate(t)`: identity with translation in the last column. -/
noncomputable def glmTranslate (t : Vec3) : Mat4 :=
  Matrix.of ![![1, 0, 0, t.x], ![0, 1, 0, t.y], ![0, 0, 1, t.z], ![0, 0, 0, 1]]

/-- `glm::rotate(angle, v)`: axis–angle rotation matrix.  GLM first
normalizes the axis, then builds the Rodrigues rotation matrix from
`c = cos angle`, `s = sin angle` and `temp = (1-c)·axis`; transcribed
here in row/column convention (GLM stores columns). -/
noncomputable def glmRotate (angle : ℝ) (v : Vec3) : Mat4 :=
  let c := Real.cos angle
  let s := Real.sin angle
  let a := glmNormalize v
  Matrix.of
    ![![c + (1 - c) * a.x * a.x, (1 - c) * a.y * a.x - s * a.z,
        (1 - c) * a.z * a.x + s * a.y, 0],
      ![(1 - c) * a.x * a.y + s * a.z, c + (1 - c) * a.y * a.y,
        (1 - c) * a.z * a.y - s * a.x, 0],
      ![(1 - c) * a.x * a.z - s * a.y, (1 - c) * a.y * a.z + s * a.x,
        c + (1 - c) * a.z * a.z, 0],
      ![0, 0, 0, 1]]

/-- The model matrix computed by `SceneManager::SetTransformations`:
`modelView = translation * rotationZ * rotationY * rotationX * scale`,
with each per-axis rotation built by `glm::rotate(glm::radians(deg), axis)`. -/
noncomputable def SetTransformations (scaleXYZ : Vec3)
    (XrotationDegrees YrotationDegrees ZrotationDegrees : ℝ)
    (positionXYZ : Vec3) : Mat4 :=
  let scale := glmScale scaleXYZ
  let rotationX := glmRotate (radians XrotationDegrees) ⟨1, 0, 0⟩
  let rotationY := glmRotate (radians YrotationDegrees) ⟨0, 1, 0⟩
  let rotationZ := glmRotate (radians ZrotationDegrees) ⟨0, 0, 1⟩
  let translation := glmTranslate positionXYZ
  translation * rotationZ * rotationY * rotationX * scale

/-- The value `SetTransformations` writes to the shader's `"model"`
uniform: written only when the shader manager is present (the null check
in the source), and then exactly the computed model matrix. -/
noncomputable def SetTransformationsUniform (shaderPresent : Bool)
    (scaleXYZ : Vec3) (xDeg yDeg zDeg : ℝ) (positionXYZ : Vec3) : Option Mat4 :=
  if shaderPresent then
    some (SetTransformations scaleXYZ xDeg yDeg zDeg positionXYZ)
  else none

/-- Specification-side canonical rotation about the X axis by `θ` radians. -/
noncomputable def rotationXMat (θ : ℝ) : Mat4 :=
  Matrix.of ![![1, 0, 0, 0],
              ![0, Real.cos θ, -Real.sin θ, 0],
              ![0, Real.sin θ, Real.cos θ, 0],
              ![0, 0, 0, 1]]

/-- Specification-side canonical rotation about the Y axis by `θ` radians. -/
noncomputable def rotationYMat (θ : ℝ) : Mat4 :=
  Matrix.of ![![Real.cos θ, 0, Real.sin θ, 0],
              ![0, 1, 0, 0],
              ![-Real.sin θ, 0, Real.cos θ, 0],
              ![0, 0, 0, 1]]

/-- Specification-side canonical rotation about the Z axis by `θ` radians. -/
noncomputable def rotationZMat (θ : ℝ) : Mat4 :=
  Matrix.of ![![Real.cos θ, -Real.sin θ, 0, 0],
              ![Real.sin θ, Real.cos θ, 0, 0],
              ![0, 0, 1, 0],
              ![0, 0, 0, 1]]

lemma glmNormalize_e1 : glmNormalize ⟨1, 0, 0⟩ = ⟨1, 0, 0⟩ := by
  simp [glmNormalize]

lemma glmNormalize_e2 : glmNormalize ⟨0, 1, 0⟩ = ⟨0, 1, 0⟩ := by
  simp [glmNormalize]

lemma glmNormalize_e3 : glmNormalize ⟨0, 0, 1⟩ = ⟨0, 0, 1⟩ := by
  simp [glmNormalize]

lemma glmRotate_axisX (θ : ℝ) : glmRotate θ ⟨1, 0, 0⟩ = rotationXMat θ := by
  unfold glmRotate rotationXMat
  rw [glmNormalize_e1]
  ext i j
  fin_cases i <;> fin_cases j <;> simp

lemma glmRotate_axisY (θ : ℝ) : glmRotate θ ⟨0, 1, 0⟩ = rotationYMat θ := by
  unfold glmRotate rotationYMat
  rw [glmNormalize_e2]
  ext i j
  fin_cases i <;> fin_cases j <;> simp

lemma glmRotate_axisZ (θ : ℝ) : glmRotate θ ⟨0, 0, 1⟩ = rotationZMat θ := by
  unfold glmRotate rotationZMat
  rw [glmNormalize_e3]
  ext i j
  fin_cases i <;> fin_cases j <;> simp

end CS330

namespace CS330

/-- C1: for every scale `S`, per-axis degree angles `rx ry rz` and
translation `T`, `SetTransformations` writes to the shader's model-matrix
uniform exactly `translate(T) · rotateZ(rz) · rotateY(ry) · rotateX(rx) ·
scale(S)`, with the degree angles converted to radians before the
canonical axis rotation matrices are built. -/
theorem setTransformations_composition_order
    (S : Vec3) (rx ry rz : ℝ) (T : Vec3) :
    SetTransformationsUniform true S rx ry rz T =
      some (glmTranslate T * rotationZMat (radians rz) *
        rotationYMat (radians ry) * rotationXMat (radians rx) * glmScale S) := by
  unfold SetTransformationsUniform SetTransformations
  rw [glmRotate_axisX, glmRotate_axisY, glmRotate_axisZ]
  simp

end CS330

namespace CS330

/-- The flame flicker scalar from `RenderScene`:
`0.92 + 0.12·sin(12·t) + 0.03·sin(37·t)` for elapsed seconds `t`. -/
noncomputable def flicker (elapsedSeconds : ℝ) : ℝ :=
  0.92 + 0.12 * Real.sin (elapsedSeconds * 12) +
    0.03 * Real.sin (elapsedSeconds * 37)

/-- The `baseDiffuse` literal for point light 0 in `RenderScene`. -/
noncomputable def baseDiffuse : Vec3 := ⟨0.95, 0.60, 0.25⟩

/-- The `baseAmbient` literal for point light 0 in `RenderScene`. -/
noncomputable def baseAmbient : Vec3 := ⟨0.07, 0.04, 0.02⟩

/-- The diffuse color written to `pointLights[0].diffuse` each frame:
`baseDiffuse * flicker`. -/
noncomputable def flickerDiffuse (t : ℝ) : Vec3 := vsmul (flicker t) baseDiffuse

/-- The ambient color written to `pointLights[0].ambient` each frame:
`baseAmbient * (0.6 + 0.4 * flicker)`. -/
noncomputable def flickerAmbient (t : ℝ) : Vec3 :=
  vsmul (0.6 + 0.4 * flicker t) baseAmbient

/-- The specular color written to `pointLights[0].specular` each frame:
`(1.0 * flicker, 0.8 * flicker, 0.5 * flicker)`. -/
noncomputable def flickerSpecular (t : ℝ) : Vec3 :=
  ⟨1.0 * flicker t, 0.8 * flicker t, 0.5 * flicker t⟩

/-- C3: the flicker scalar is `0.92 + 0.12·sin(12t) + 0.03·sin(37t)`; it
equals `0.92` exactly at `t = 0`, stays inside `[0.92 - 0.15, 0.92 + 0.15]`
for every `t`, and is applied multiplicatively to point light 0's diffuse
and specular while the ambient is scaled by the dampened `0.6 + 0.4·flicker`
blend. -/
theorem flicker_formula_bounds_and_application :
    flicker 0 = 0.92 ∧
    (∀ t : ℝ, flicker t = 0.92 + 0.12 * Real.sin (12 * t) +
      0.03 * Real.sin (37 * t)) ∧
    (∀ t : ℝ, 0.92 - 0.15 ≤ flicker t ∧ flicker t ≤ 0.92 + 0.15) ∧
    (∀ t : ℝ, flickerDiffuse t = vsmul (flicker t) baseDiffuse ∧
      flickerSpecular t = vsmul (flicker t) ⟨1.0, 0.8, 0.5⟩ ∧
      flickerAmbient t = vsmul (0.6 + 0.4 * flicker t) baseAmbient) := by
  refine ⟨?_, ?_, ?_, ?_⟩
  · simp [flicker]
  · intro t
    rw [flicker, mul_comm t 12, mul_comm t 37]
  · intro t
    have h1 := Real.neg_one_le_sin (t * 12)
    have h2 := Real.sin_le_one (t * 12)
    have h3 := Real.neg_one_le_sin (t * 37)
    have h4 := Real.sin_le_one (t * 37)
    unfold flicker
    constructor <;> linarith
  · intro t
    refine ⟨rfl, ?_, rfl⟩
    simp [flickerSpecular, vsmul, mul_comm]

/-- Camera state (`Camera` object plus the file-scope
`bOrthographicProjection` flag) as mutated by `ViewManager`. -/
structure CameraState where
  Position : Vec3
  Front : Vec3
  Up : Vec3
  Zoom : ℝ
  MovementSpeed : ℝ
  orthographicProjection : Bool

/-- Effect of the `GLFW_KEY_P` branch of `ProcessKeyboardEvents`: clears
the orthographic flag and resets position/front/up to the literal
perspective preset; the other camera fields are untouched. -/
noncomputable def pressPerspectiveKey (s : CameraState) : CameraState :=
  { s with
    orthographicProjection := false
    Position := ⟨0, 9, 18⟩
    Front := ⟨0, -0.8, -3⟩
    Up := ⟨0, 1, 0⟩ }

/-- Effect of the `GLFW_KEY_O` branch of `ProcessKeyboardEvents`: sets
the orthographic flag and resets position/front/up to the orthographic
preset (front is normalized in the source). -/
noncomputable def pressOrthographicKey (s : CameraState) : CameraState :=
  { s with
    orthographicProjection := true
    Position := ⟨0, 5, 10⟩
    Front := glmNormalize ⟨0, -0.3, -1⟩
    Up := ⟨0, 1, 0⟩ }

/-- C4: pressing the perspective key resets position/front/up to the
exact literal perspective preset for every camera state, and in the round
trip Perspective → (arbitrary free-look) → Orthographic → (arbitrary
free-look) → Perspective the final state carries exactly the preset,
discarding all free-look state accumulated before the switch. -/
theorem perspective_key_atomic_reset :
    ∀ (s : CameraState) (freeLook1 freeLook2 : CameraState → CameraState),
      ((pressPerspectiveKey s).Position = ⟨0, 9, 18⟩ ∧
        (pressPerspectiveKey s).Front = ⟨0, -0.8, -3⟩ ∧
        (pressPerspectiveKey s).Up = ⟨0, 1, 0⟩ ∧
        (pressPerspectiveKey s).orthographicProjection = false) ∧
      (let roundTrip := pressPerspectiveKey
        (freeLook2 (pressOrthographicKey (freeLook1 (pressPerspectiveKey s))))
       roundTrip.Position = ⟨0, 9, 18⟩ ∧
        roundTrip.Front = ⟨0, -0.8, -3⟩ ∧
        roundTrip.Up = ⟨0, 1, 0⟩ ∧
        roundTrip.orthographicProjection = false) :=
  fun _ _ _ => ⟨⟨rfl, rfl, rfl, rfl⟩, ⟨rfl, rfl, rfl, rfl⟩⟩

end CS330

namespace CS330

/-- `bookPosition` literal in `DrawBookSetup`. -/
noncomputable def bookPosition : Vec3 := ⟨-2.0, 0.20, 2.1⟩

/-- `bookScaleFactor` literal in `DrawBookSetup`. -/
noncomputable def bookScaleFactor : ℝ := 1.4

/-- `coverWidth = 4.6 * bookScaleFactor` in `DrawBookSetup`. -/
noncomputable def coverWidth : ℝ := 4.6 * bookScaleFactor

/-- `penScale` literal in the pen block of `DrawBookSetup`. -/
noncomputable def penScale : ℝ := 1.7

/-- Pen body length `0.45 * bookScaleFactor * penScale`. -/
noncomputable def penLength : ℝ := 0.45 * bookScaleFactor * penScale

/-- Pen rear radius `0.025 * bookScaleFactor * penScale`. -/
noncomputable def penRRear : ℝ := 0.025 * bookScaleFactor * penScale

/-- Pen front radius `0.015 * bookScaleFactor * penScale`. -/
noncomputable def penRFront : ℝ := 0.015 * bookScaleFactor * penScale

/-- Pen tip length `0.06 * bookScaleFactor * penScale * 2.6`. -/
noncomputable def penTipLen : ℝ := 0.06 * bookScaleFactor * penScale * 2.6

/-- Pen direction `glm::normalize(vec3(sin(yawRad), 0, cos(yawRad)))`
derived from the yaw angle `rotY` in degrees. -/
noncomputable def penDir (rotY : ℝ) : Vec3 :=
  glmNormalize ⟨Real.sin (radians rotY), 0, Real.cos (radians rotY)⟩

/-- Pen body `center` position in `DrawBookSetup`. -/
noncomputable def penCenter : Vec3 :=
  vadd bookPosition
    ⟨coverWidth * 0.5 + 0.85, -0.20 + max penRRear penRFront + 0.002,
      0.50 * bookScaleFactor⟩

/-- End of the pen body: `front = center + dir * (length * 0.5 + 0.003)`. -/
noncomputable def penFront (rotY : ℝ) : Vec3 :=
  vadd penCenter (vsmul (penLength * 0.5 + 0.003) (penDir rotY))

/-- Conical tip center: `tipPos = front + dir * (tipLen * 0.5 + 0.003)`. -/
noncomputable def penTipPos (rotY : ℝ) : Vec3 :=
  vadd (penFront rotY) (vsmul (penTipLen * 0.5 + 0.003) (penDir rotY))

lemma penDir_eq (rotY : ℝ) :
    penDir rotY = ⟨Real.sin (radians rotY), 0, Real.cos (radians rotY)⟩ := by
  unfold penDir glmNormalize
  have hs : Real.sin (radians rotY) ^ 2 + (0 : ℝ) ^ 2 +
      Real.cos (radians rotY) ^ 2 = 1 := by
    rw [← Real.sin_sq_add_cos_sq (radians rotY)]
    ring
  simp [hs]

/-- C5: for every yaw angle `rotY`, the tip center minus the pen body's
end, projected onto the pen's unit direction vector, equals
`tipLen/2 + 0.003` — the tip sits flush regardless of the yaw. -/
theorem pen_tip_flush_projection (rotY : ℝ) :
    dot3 (vsub (penTipPos rotY) (penFront rotY)) (penDir rotY) =
      penTipLen * 0.5 + 0.003 := by
  have hpyth := Real.sin_sq_add_cos_sq (radians rotY)
  have hfactor : dot3 (vsub (penTipPos rotY) (penFront rotY)) (penDir rotY) =
      (penTipLen * 0.5 + 0.003) *
        (Real.sin (radians rotY) ^ 2 + Real.cos (radians rotY) ^ 2) := by
    unfold penTipPos penFront
    rw [penDir_eq]
    unfold vadd vsub vsmul dot3
    ring
  rw [hfactor, hpyth, mul_one]

/-- Closed instance of the pen-tip property: at the source's literal yaw
`baseRotationY + 10 = 14.5` degrees, the projected tip offset equals
`tipLen/2 + 0.003`. -/
theorem pen_tip_flush_projection_witness :
    dot3 (vsub (penTipPos 14.5) (penFront 14.5)) (penDir 14.5) =
      penTipLen * 0.5 + 0.003 :=
  pen_tip_flush_projection 14.5

end CS330

namespace CS330

/-- One stage of the candle-holder stack in `RenderScene`: `extra` is the
stage's literal additive Y offset beside the running `currentY` (for
example the cup's `+ 0.7`), and `inc` is the `currentY += _` height
contribution executed at that stage (0 when the stage adds none). -/
structure CandleStage where
  extra : ℚ
  inc : ℚ
deriving DecidableEq, Repr

/-- The 8 stages of the candle assembly in source order — base, stem,
decorative sphere, upper stem, cup, rim, candle body, wick — with each
stage's extra Y offset and its `currentY` increment from `RenderScene`. -/
def candleStages : List CandleStage :=
  [⟨0, 0.6⟩, ⟨0, 1.0⟩, ⟨0, 0.15⟩, ⟨0, 0.8⟩,
   ⟨0.7, 0⟩, ⟨0.7, 1.0⟩, ⟨-0.2, 0⟩, ⟨1.8, 0⟩]

/-- Y component of `candleOffset = vec3(-3.5, 0.0, -3.0)` in `RenderScene`. -/
def candleOffsetY : ℚ := 0

/-- The candle stack accumulation from `RenderScene`: starting from the
running offset `y` (`currentY`), each stage is drawn at
`candleOffsetY + currentY + stage.extra` and then `currentY` is advanced
by `stage.inc`; returns the list of stage Y positions and the final
`currentY`. -/
def candleRun : ℚ → List CandleStage → List ℚ × ℚ
  | y, [] => ([], y)
  | y, s :: rest =>
    let out := candleRun (y + s.inc) rest
    ((candleOffsetY + y + s.extra) :: out.1, out.2)

lemma candleRun_final (ss : List CandleStage) :
    ∀ y : ℚ, (candleRun y ss).2 = y + (ss.map CandleStage.inc).sum := by
  induction ss with
  | nil => intro y; simp [candleRun]
  | cons s rest ih =>
    intro y
    simp [candleRun, ih (y + s.inc)]
    ring

/-- C2: the candle assembly is a strict bottom-up accumulation — starting
from `currentY = 0`, each of the 8 stages is positioned at the accumulated
offset of the stages before it plus its own literal offset, and the
accumulated `currentY` after all 8 stages equals the sum of the 8 stage
height contributions in source order (`0.6+1.0+0.15+0.8+0+1.0+0+0 = 3.55`). -/
theorem candle_stack_accumulation :
    (candleRun 0 candleStages).2 = (candleStages.map CandleStage.inc).sum ∧
    (candleRun 0 candleStages).2 = 3.55 ∧
    (candleRun 0 candleStages).1 =
      (List.range candleStages.length).map (fun i =>
        candleOffsetY + ((candleStages.take i).map CandleStage.inc).sum +
          (candleStages.getD i ⟨0, 0⟩).extra) := by
  refine ⟨?_, ?_, ?_⟩
  · rw [candleRun_final candleStages 0]
    ring
  · rw [candleRun_final candleStages 0]
    norm_num [candleStages]
  · norm_num [candleRun, candleStages, candleOffsetY, List.range_succ]

end CS330

namespace CS330

/-- A material entry, mirroring `OBJECT_MATERIAL` (colors as exact
rational triples). -/
structure OBJECT_MATERIAL where
  diffuseColor : ℚ × ℚ × ℚ
  specularColor : ℚ × ℚ × ℚ
  shininess : ℚ
  tag : String
deriving DecidableEq, Repr

/-- The material table populated by `DefineObjectMaterials`:
metal, wood, candle, flame, cement with the source's literal values. -/
def m_objectMaterials : List OBJECT_MATERIAL :=
  [⟨(0.7, 0.68, 0.6), (0.95, 0.92, 0.85), 64, "metal"⟩,
   ⟨(0.45, 0.3, 0.15), (0.05, 0.05, 0.05), 8, "wood"⟩,
   ⟨(0.95, 0.92, 0.85), (0.2, 0.2, 0.2), 12, "candle"⟩,
   ⟨(1.0, 0.7, 0.25), (0.9, 0.6, 0.2), 16, "flame"⟩,
   ⟨(0.6, 0.6, 0.6), (0.3, 0.3, 0.3), 16, "cement"⟩]

/-- The three material uniforms `SetShaderMaterial` uploads
(`material.diffuseColor`, `material.specularColor`, `material.shininess`). -/
structure ShaderMaterialUniforms where
  diffuseColor : ℚ × ℚ × ℚ
  specularColor : ℚ × ℚ × ℚ
  shininess : ℚ
deriving DecidableEq, Repr

/-- The hard-coded fallback of `SetShaderMaterial` when no tag matches. -/
def defaultMaterialUniforms : ShaderMaterialUniforms :=
  ⟨(0.8, 0.8, 0.8), (0.2, 0.2, 0.2), 8⟩

/-- `SceneManager::SetShaderMaterial`: linear scan of the material table,
first tag match wins; when no entry matches, the hard-coded default
material is uploaded instead. -/
def SetShaderMaterial (materialTag : String) : ShaderMaterialUniforms :=
  match m_objectMaterials.find? (fun m => m.tag == materialTag) with
  | some m => ⟨m.diffuseColor, m.specularColor, m.shininess⟩
  | none => defaultMaterialUniforms

/-- C6: material lookup never fails — for every tag, if no entry of the
material table carries that tag the uploaded material is exactly the
default `{(0.8,0.8,0.8), (0.2,0.2,0.2), 8}`, and if the scan finds an
entry, that entry's values are uploaded unchanged. -/
theorem material_lookup_total_with_default (tag : String) :
    ((∀ m ∈ m_objectMaterials, m.tag ≠ tag) →
      SetShaderMaterial tag = defaultMaterialUniforms) ∧
    (∀ m, m_objectMaterials.find? (fun x => x.tag == tag) = some m →
      SetShaderMaterial tag = ⟨m.diffuseColor, m.specularColor, m.shininess⟩) := by
  constructor
  · intro h
    have hnone : m_objectMaterials.find? (fun x => x.tag == tag) = none := by
      rw [List.find?_eq_none]
      intro x hx
      simpa using h x hx
    unfold SetShaderMaterial
    rw [hnone]
  · intro m hm
    unfold SetShaderMaterial
    rw [hm]

/-- Closed instance of material lookup: an absent tag yields the default
material, and the tag `"wood"` yields the wood entry unchanged. -/
theorem material_lookup_total_with_default_witness :
    SetShaderMaterial "nonexistent-tag" = defaultMaterialUniforms ∧
    SetShaderMaterial "wood" =
      ⟨(0.45, 0.3, 0.15), (0.05, 0.05, 0.05), 8⟩ :=
  ⟨(material_lookup_total_with_default "nonexistent-tag").1 (by decide),
   (material_lookup_total_with_default "wood").2
     ⟨(0.45, 0.3, 0.15), (0.05, 0.05, 0.05), 8, "wood"⟩ rfl⟩

end CS330

namespace CS330

/-- One scroll event as handled by the scroll callback in
`CreateDisplayWindow`: the y-offset is added to `MovementSpeed`, then the
result is clamped below at 1 and above at 100 (two sequential `if`s). -/
def scrollStep (speed yoffset : ℚ) : ℚ :=
  let s1 := speed + yoffset
  let s2 := if s1 < 1 then 1 else s1
  if 100 < s2 then 100 else s2

/-- The `MovementSpeed` set by the `ViewManager` constructor. -/
def initialMovementSpeed : ℚ := 20

lemma scrollStep_bounds (speed y : ℚ) :
    1 ≤ scrollStep speed y ∧ scrollStep speed y ≤ 100 := by
  simp only [scrollStep]
  split_ifs with h1 h2 h3 <;> constructor <;> linarith

lemma foldl_scrollStep_bounds (evs : List ℚ) :
    ∀ speed : ℚ, 1 ≤ speed → speed ≤ 100 →
      1 ≤ List.foldl scrollStep speed evs ∧
        List.foldl scrollStep speed evs ≤ 100 := by
  induction evs with
  | nil => intro s h1 h2; simpa using ⟨h1, h2⟩
  | cons e rest ih =>
    intro s h1 h2
    simp only [List.foldl_cons]
    exact ih _ (scrollStep_bounds s e).1 (scrollStep_bounds s e).2

/-- C7: for every sequence of scroll events starting from the
constructor's speed 20, `MovementSpeed` stays in `[1, 100]`, and each
event adjusts the speed additively (by exactly its y-offset) whenever the
sum stays inside the clamp range. -/
theorem scroll_speed_clamped :
    (∀ evs : List ℚ,
      1 ≤ List.foldl scrollStep initialMovementSpeed evs ∧
        List.foldl scrollStep initialMovementSpeed evs ≤ 100) ∧
    (∀ speed y : ℚ, 1 ≤ speed + y → speed + y ≤ 100 →
      scrollStep speed y = speed + y) := by
  constructor
  · intro evs
    exact foldl_scrollStep_bounds evs initialMovementSpeed
      (by norm_num [initialMovementSpeed]) (by norm_num [initialMovementSpeed])
  · intro speed y h1 h2
    simp only [scrollStep]
    split_ifs with ha hb <;> first | rfl | linarith

/-- Closed instance of the scroll clamp: a down-up-down burst of scroll
events keeps the speed within `[1, 100]`, and an in-range event is
applied additively. -/
theorem scroll_speed_clamped_witness :
    (1 ≤ List.foldl scrollStep initialMovementSpeed [-500, 30, 700] ∧
      List.foldl scrollStep initialMovementSpeed [-500, 30, 700] ≤ 100) ∧
    scrollStep 20 3 = 23 := by
  refine ⟨scroll_speed_clamped.1 [-500, 30, 700], ?_⟩
  rw [scroll_speed_clamped.2 20 3 (by norm_num) (by norm_num)]
  norm_num

end CS330

namespace CS330

/-- A texture registry entry, mirroring the `{tag, ID}` pairs stored in
`m_textureIDs` in registration order (the first `m_loadedTextures`
entries of the array). -/
structure TEXTURE_INFO where
  tag : String
  ID : ℤ
deriving DecidableEq, Repr

/-- `SceneManager::FindTextureID`: linear scan over the registered
entries, returning the first matching entry's backend ID, or `-1` when
the tag is absent. -/
def FindTextureID : List TEXTURE_INFO → String → ℤ
  | [], _ => -1
  | e :: rest, tag => if e.tag = tag then e.ID else FindTextureID rest tag

/-- The loop of `SceneManager::FindTextureSlot` with running index `i`. -/
def FindTextureSlotAux : List TEXTURE_INFO → String → ℤ → ℤ
  | [], _, _ => -1
  | e :: rest, tag, i =>
    if e.tag = tag then i else FindTextureSlotAux rest tag (i + 1)

/-- `SceneManager::FindTextureSlot`: linear scan returning the index of
the first matching entry, or `-1` when the tag is absent. -/
def FindTextureSlot (textures : List TEXTURE_INFO) (tag : String) : ℤ :=
  FindTextureSlotAux textures tag 0

/-- The sampler slot `SceneManager::SetShaderTexture` writes to the
`objectTexture` uniform: the looked-up slot, with an explicit fallback to
slot 0 at this call site when the lookup reports not-found. -/
def SetShaderTextureSlot (textures : List TEXTURE_INFO) (tag : String) : ℤ :=
  let textureSlot := FindTextureSlot textures tag
  if textureSlot < 0 then 0 else textureSlot

lemma FindTextureSlotAux_absent (tag : String) :
    ∀ (l : List TEXTURE_INFO) (i : ℤ), (∀ e ∈ l, e.tag ≠ tag) →
      FindTextureSlotAux l tag i = -1 := by
  intro l
  induction l with
  | nil => intro i _; rfl
  | cons e rest ih =>
    intro i h
    have he : e.tag ≠ tag := h e (by simp)
    simp only [FindTextureSlotAux, if_neg he]
    exact ih (i + 1) fun x hx => h x (by simp [hx])

lemma FindTextureID_absent (tag : String) :
    ∀ l : List TEXTURE_INFO, (∀ e ∈ l, e.tag ≠ tag) →
      FindTextureID l tag = -1 := by
  intro l
  induction l with
  | nil => intro _; rfl
  | cons e rest ih =>
    intro h
    have he : e.tag ≠ tag := h e (by simp)
    simp only [FindTextureID, if_neg he]
    exact ih fun x hx => h x (by simp [hx])

lemma FindTextureSlotAux_ge (tag : String) :
    ∀ (l : List TEXTURE_INFO) (i : ℤ), (∃ e ∈ l, e.tag = tag) →
      i ≤ FindTextureSlotAux l tag i := by
  intro l
  induction l with
  | nil => intro i h; simp at h
  | cons e rest ih =>
    intro i h
    by_cases he : e.tag = tag
    · simp [FindTextureSlotAux, if_pos he]
    · simp only [FindTextureSlotAux, if_neg he]
      have hrest : ∃ x ∈ rest, x.tag = tag := by
        rcases h with ⟨x, hx, hxtag⟩
        rcases List.mem_cons.mp hx with rfl | hmem
        · exact absurd hxtag he
        · exact ⟨x, hmem, hxtag⟩
      have := ih (i + 1) hrest
      linarith

lemma FindTextureSlotAux_first (tag : String) :
    ∀ (l₁ : List TEXTURE_INFO) (e : TEXTURE_INFO) (l₂ : List TEXTURE_INFO)
      (i : ℤ), (∀ x ∈ l₁, x.tag ≠ tag) → e.tag = tag →
      FindTextureSlotAux (l₁ ++ e :: l₂) tag i = i + l₁.length := by
  intro l₁
  induction l₁ with
  | nil =>
    intro e l₂ i _ he
    simp [FindTextureSlotAux, if_pos he]
  | cons x rest ih =>
    intro e l₂ i h he
    have hx : x.tag ≠ tag := h x (by simp)
    simp only [List.cons_append, FindTextureSlotAux, if_neg hx, List.append_eq]
    rw [ih e l₂ (i + 1) (fun y hy => h y (by simp [hy])) he]
    simp only [List.length_cons]
    push_cast
    ring

lemma FindTextureID_first (tag : String) :
    ∀ (l₁ : List TEXTURE_INFO) (e : TEXTURE_INFO) (l₂ : List TEXTURE_INFO),
      (∀ x ∈ l₁, x.tag ≠ tag) → e.tag = tag →
      FindTextureID (l₁ ++ e :: l₂) tag = e.ID := by
  intro l₁
  induction l₁ with
  | nil =>
    intro e l₂ _ he
    simp [FindTextureID, if_pos he]
  | cons x rest ih =>
    intro e l₂ h he
    have hx : x.tag ≠ tag := h x (by simp)
    simp only [List.cons_append, FindTextureID, if_neg hx, List.append_eq]
    exact ih e l₂ (fun y hy => h y (by simp [hy])) he

/-- C8: `FindTextureSlot` / `FindTextureID` return the first matching
entry of the registry; when the tag is absent both return the sentinel
`-1`, which is negative and hence distinct from every valid slot
(valid slots are `≥ 0`, in particular distinct from slot 0); the slot-0
fallback on not-found is applied only by `SetShaderTexture` as an
explicit policy at the call site, never by the lookups. -/
theorem texture_lookup_sentinel_and_fallback
    (l : List TEXTURE_INFO) (tag : String) :
    ((∀ e ∈ l, e.tag ≠ tag) →
      FindTextureSlot l tag = -1 ∧ FindTextureID l tag = -1) ∧
    ((∃ e ∈ l, e.tag = tag) → 0 ≤ FindTextureSlot l tag) ∧
    (∀ l₁ e l₂, l = l₁ ++ e :: l₂ → (∀ x ∈ l₁, x.tag ≠ tag) → e.tag = tag →
      FindTextureSlot l tag = l₁.length ∧ FindTextureID l tag = e.ID) ∧
    SetShaderTextureSlot l tag =
      (if FindTextureSlot l tag < 0 then 0 else FindTextureSlot l tag) := by
  refine ⟨?_, ?_, ?_, rfl⟩
  · intro h
    exact ⟨FindTextureSlotAux_absent tag l 0 h, FindTextureID_absent tag l h⟩
  · intro h
    exact FindTextureSlotAux_ge tag l 0 h
  · intro l₁ e l₂ hl h he
    subst hl
    constructor
    · rw [FindTextureSlot, FindTextureSlotAux_first tag l₁ e l₂ 0 h he]
      ring
    · exact FindTextureID_first tag l₁ e l₂ h he

/-- Closed instance of the texture lookup contract on the registry
`[{wood, 7}, {metal, 9}]`: an absent tag yields sentinel `-1` from both
lookups while the caller falls back to slot 0, and `"metal"` resolves to
its first (and only) occurrence at slot 1 with ID 9. -/
theorem texture_lookup_sentinel_and_fallback_witness :
    (FindTextureSlot [⟨"wood", 7⟩, ⟨"metal", 9⟩] "absent" = -1 ∧
      FindTextureID [⟨"wood", 7⟩, ⟨"metal", 9⟩] "absent" = -1) ∧
    (0 : ℤ) ≤ FindTextureSlot [⟨"wood", 7⟩, ⟨"metal", 9⟩] "metal" ∧
    (FindTextureSlot [⟨"wood", 7⟩, ⟨"metal", 9⟩] "metal" = 1 ∧
      FindTextureID [⟨"wood", 7⟩, ⟨"metal", 9⟩] "metal" = 9) ∧
    SetShaderTextureSlot [⟨"wood", 7⟩, ⟨"metal", 9⟩] "absent" = 0 := by
  refine ⟨?_, ?_, ?_, ?_⟩
  · exact (texture_lookup_sentinel_and_fallback
      [⟨"wood", 7⟩, ⟨"metal", 9⟩] "absent").1 (by decide)
  · exact (texture_lookup_sentinel_and_fallback
      [⟨"wood", 7⟩, ⟨"metal", 9⟩] "metal").2.1 ⟨⟨"metal", 9⟩, by decide, rfl⟩
  · have h := (texture_lookup_sentinel_and_fallback
      [⟨"wood", 7⟩, ⟨"metal", 9⟩] "metal").2.2.1
      [⟨"wood", 7⟩] ⟨"metal", 9⟩ [] rfl (by decide) rfl
    simpa using h
  · have h := (texture_lookup_sentinel_and_fallback
      [⟨"wood", 7⟩, ⟨"metal", 9⟩] "absent").2.2.2
    rw [h]
    decide

end CS330

namespace CS330

/-- The registration step of a successful `SceneManager::CreateGLTexture`:
the new `{tag, ID}` entry is stored at index `m_loadedTextures` (the end
of the registration-ordered registry) and the count is incremented; no
duplicate-tag check is performed. -/
def CreateGLTextureRegister (textures : List TEXTURE_INFO)
    (e : TEXTURE_INFO) : List TEXTURE_INFO :=
  textures ++ [e]

/-- Registry obtained from two successful loads under the same tag
`"dup"`: first with backend ID 5, then with backend ID 7. -/
def dupTagRegistry : List TEXTURE_INFO :=
  CreateGLTextureRegister (CreateGLTextureRegister [] ⟨"dup", 5⟩) ⟨"dup", 7⟩

/-- Counterexample to C9 as stated: after loading ID 5 and then ID 7
under the same tag `"dup"`, the lookups resolve to the FIRST registered
entry (ID 5, slot 0), not to the most recently registered one (ID 7,
slot 1) — last-loaded does not win. -/
theorem duplicate_tag_last_wins_counterexample :
    FindTextureID dupTagRegistry "dup" = 5 ∧
    ¬ FindTextureID dupTagRegistry "dup" = 7 ∧
    FindTextureSlot dupTagRegistry "dup" = 0 ∧
    ¬ FindTextureSlot dupTagRegistry "dup" = 1 := by
  refine ⟨rfl, by decide, rfl, by decide⟩

lemma FindTextureID_append_of_present (tag : String) :
    ∀ (l l' : List TEXTURE_INFO), (∃ e ∈ l, e.tag = tag) →
      FindTextureID (l ++ l') tag = FindTextureID l tag := by
  intro l
  induction l with
  | nil => intro l' h; simp at h
  | cons x rest ih =>
    intro l' h
    by_cases hx : x.tag = tag
    · simp [FindTextureID, if_pos hx]
    · have hrest : ∃ e ∈ rest, e.tag = tag := by
        rcases h with ⟨e, he, hetag⟩
        rcases List.mem_cons.mp he with rfl | hmem
        · exact absurd hetag hx
        · exact ⟨e, hmem, hetag⟩
      simp only [List.cons_append, FindTextureID, if_neg hx, List.append_eq]
      exact ih l' hrest

lemma FindTextureSlotAux_append_of_present (tag : String) :
    ∀ (l : List TEXTURE_INFO), (∃ e ∈ l, e.tag = tag) →
      ∀ (l' : List TEXTURE_INFO) (i : ℤ),
        FindTextureSlotAux (l ++ l') tag i = FindTextureSlotAux l tag i := by
  intro l
  induction l with
  | nil => intro h; simp at h
  | cons x rest ih =>
    intro h l' i
    by_cases hx : x.tag = tag
    · simp [FindTextureSlotAux, if_pos hx]
    · have hrest : ∃ e ∈ rest, e.tag = tag := by
        rcases h with ⟨e, he, hetag⟩
        rcases List.mem_cons.mp he with rfl | hmem
        · exact absurd hetag hx
        · exact ⟨e, hmem, hetag⟩
      simp only [List.cons_append, FindTextureSlotAux, if_neg hx,
        List.append_eq]
      exact ih hrest l' (i + 1)

/-- C9 (amended): when a texture is loaded under an already-registered
tag, the earliest registered entry wins — a later registration never
changes what `FindTextureID` / `FindTextureSlot` resolve for that tag —
while load-time registration performs no deduplication (the duplicate
entry is appended regardless). -/
theorem duplicate_tag_first_wins (l : List TEXTURE_INFO)
    (e : TEXTURE_INFO) (tag : String) :
    (CreateGLTextureRegister l e).length = l.length + 1 ∧
    ((∃ x ∈ l, x.tag = tag) →
      FindTextureID (CreateGLTextureRegister l e) tag =
        FindTextureID l tag ∧
      FindTextureSlot (CreateGLTextureRegister l e) tag =
        FindTextureSlot l tag) := by
  constructor
  · simp [CreateGLTextureRegister]
  · intro h
    constructor
    · exact FindTextureID_append_of_present tag l [e] h
    · exact FindTextureSlotAux_append_of_present tag l h [e] 0

/-- Closed instance of the amended duplicate-tag behavior: registering
ID 7 under the already-present tag `"dup"` leaves the lookup at the
first entry's ID 5, and the registry grows to 2 entries (no dedup). -/
theorem duplicate_tag_first_wins_witness :
    dupTagRegistry.length = 2 ∧
    FindTextureID dupTagRegistry "dup" =
      FindTextureID (CreateGLTextureRegister [] ⟨"dup", 5⟩) "dup" ∧
    FindTextureSlot dupTagRegistry "dup" =
      FindTextureSlot (CreateGLTextureRegister [] ⟨"dup", 5⟩) "dup" := by
  have h := duplicate_tag_first_wins (CreateGLTextureRegister [] ⟨"dup", 5⟩)
    ⟨"dup", 7⟩ "dup"
  exact ⟨by decide, (h.2 ⟨⟨"dup", 5⟩, by decide, rfl⟩).1,
    (h.2 ⟨⟨"dup", 5⟩, by decide, rfl⟩).2⟩

end CS330

namespace CS330

/-- The texture-count state of `SceneManager` (`m_loadedTextures`),
starting at 0 in the constructor. -/
structure RegistryCounter where
  loaded : ℕ
deriving DecidableEq, Repr

/-- Size of the fixed `m_textureIDs` array: the constructor initializes
exactly 16 entries. -/
def textureArrayCapacity : ℕ := 16

/-- The array index `CreateGLTexture` writes its new entry to on a
successful load: `m_textureIDs[m_loadedTextures]`, with no capacity
check anywhere on the path. -/
def createGLTextureWriteIndex (s : RegistryCounter) : ℕ := s.loaded

/-- The counter update of a successful `CreateGLTexture`:
`m_loadedTextures++`, unconditionally. -/
def createGLTextureSuccess (s : RegistryCounter) : RegistryCounter :=
  ⟨s.loaded + 1⟩

/-- The counter after `n` successful loads on a freshly constructed
`SceneManager`. -/
def afterSuccessfulLoads : ℕ → RegistryCounter
  | 0 => ⟨0⟩
  | n + 1 => createGLTextureSuccess (afterSuccessfulLoads n)

/-- C10: `CreateGLTexture` performs no capacity check — the registry
write of the `n+1`-st successful load targets index `n`, which is inside
the 16-slot array exactly when at most 16 loads succeed; the 17th
successful load writes at index 16, past the end of the array. -/
theorem texture_registry_no_capacity_check :
    (∀ n, (afterSuccessfulLoads n).loaded = n) ∧
    (∀ n, createGLTextureWriteIndex (afterSuccessfulLoads n) <
      textureArrayCapacity ↔ n < 16) ∧
    ¬ (createGLTextureWriteIndex (afterSuccessfulLoads 16) <
      textureArrayCapacity) := by
  have h : ∀ n, (afterSuccessfulLoads n).loaded = n := by
    intro n
    induction n with
    | zero => rfl
    | succ k ih => simp [afterSuccessfulLoads, createGLTextureSuccess, ih]
  refine ⟨h, ?_, ?_⟩
  · intro n
    unfold createGLTextureWriteIndex textureArrayCapacity
    rw [h n]
  · unfold createGLTextureWriteIndex textureArrayCapacity
    rw [h 16]
    omega

end CS330
